import Mathlib

/-!
Shallow embedding of the voice-assistant orchestration core of the
`assidenter` repository (src-tauri/src/lib.rs and src-tauri/src/services/).

The embedding models:
  * a JSON value type mirroring `serde_json::Value` with its lenient
    indexing (`value["k"]` is `Null` on a miss);
  * HTTP outcomes as oracles: each service call takes the server's answer
    as an explicit argument, so theorems quantify over server behaviour;
  * the Qwen LLM client (`services/llm.rs`): chat, chat_stream, history;
  * the WhisperLiveKit ASR client (`services/asr.rs`): transcribe_wav and
    the WAV container encoder samples_to_wav;
  * the VoxCPM TTS client (`services/tts.rs`): synthesize;
  * the Tauri command layer (`lib.rs`): process_audio, send_text_message,
    configure_services, clear_conversation, with an explicit event trace.
-/

namespace Assidenter

/-- JSON values, mirroring `serde_json::Value`. Numbers are modelled as
rationals (the exact values the source manipulates, before any float
rounding). -/
inductive Json where
  | null : Json
  | bool (b : Bool) : Json
  | num (q : ℚ) : Json
  | str (s : String) : Json
  | arr (elems : List Json) : Json
  | obj (fields : List (String × Json)) : Json
deriving Repr

/-- Field access `value["key"]`: `Null` when the value is not an object or
the key is missing, as in `serde_json`. -/
def Json.getField (j : Json) (k : String) : Json :=
  match j with
  | .obj fields =>
    match fields.find? (fun p => p.1 = k) with
    | some p => p.2
    | none => .null
  | _ => .null

/-- Index access `value[i]`: `Null` when the value is not an array or the
index is out of range, as in `serde_json`. -/
def Json.getIdx (j : Json) (i : Nat) : Json :=
  match j with
  | .arr elems => (elems.get? i).getD .null
  | _ => .null

/-- The `as_str` accessor of `serde_json::Value`. -/
def Json.asStr (j : Json) : Option String :=
  match j with
  | .str s => some s
  | _ => none

/-- The `as_f64` accessor of `serde_json::Value` (numeric payload, exact). -/
def Json.asF64 (j : Json) : Option ℚ :=
  match j with
  | .num q => some q
  | _ => none

/-- Outcome of one `reqwest` round trip: either the send itself failed
(transport error) or a response with a status code and a body arrived. -/
inductive HttpResult (β : Type) where
  | sendFailure (e : String) : HttpResult β
  | ok (status : Nat) (body : β) : HttpResult β

/-- The `StatusCode::is_success` predicate of reqwest: 2xx. -/
def statusIsSuccess (code : Nat) : Bool :=
  decide (200 ≤ code ∧ code ≤ 299)

/-- One conversation turn, `ChatMessage` in services/llm.rs. -/
structure ChatMessage where
  role : String
  content : String
deriving Repr, DecidableEq

/-- Serialization of a ChatMessage into the request payload. -/
def ChatMessage.toJson (m : ChatMessage) : Json :=
  Json.obj [(("role"), Json.str m.role), (("content"), Json.str m.content)]

/-- Qwen LLM configuration, `QwenConfig` in services/llm.rs. -/
structure QwenConfig where
  server_url : String
  model : String
  temperature : ℚ
  max_tokens : Nat
  system_prompt : String
deriving Repr, DecidableEq

/-- Default QwenConfig from services/llm.rs. -/
def QwenConfig.default : QwenConfig where
  server_url := "http://localhost:8080"
  model := "qwen-0.5b"
  temperature := (7 : ℚ) / 10
  max_tokens := 512
  system_prompt := "You are a helpful AI assistant. Respond concisely and helpfully."

/-- LLM call result, `LLMResponse` in services/llm.rs. -/
structure LLMResponse where
  text : String
  finish_reason : Option String
deriving Repr, DecidableEq

/-- The Qwen LLM client state: configuration plus conversation history
(the reqwest `Client` handle carries no observable state). -/
structure QwenLLM where
  config : QwenConfig
  conversation_history : List ChatMessage
deriving Repr, DecidableEq

/-- Constructor `QwenLLM::new`. -/
def QwenLLM.new (config : QwenConfig) : QwenLLM :=
  { config := config, conversation_history := [] }

/-- The outbound message list built by `chat`/`chat_stream` after pushing
the user message: system prompt first, then the whole history including
the just-appended user message (services/llm.rs lines 59-70). -/
def QwenLLM.buildMessages (st : QwenLLM) (user_message : String) : List ChatMessage :=
  { role := "system", content := st.config.system_prompt }
    :: (st.conversation_history ++ [{ role := "user", content := user_message }])

/-- The OpenAI-compatible request payload of `chat`/`chat_stream`. -/
def QwenLLM.chatPayload (st : QwenLLM) (messages : List ChatMessage) (stream_flag : Bool) : Json :=
  Json.obj
    [ (("model"), Json.str st.config.model)
    , (("messages"), Json.arr (messages.map ChatMessage.toJson))
    , (("temperature"), Json.num st.config.temperature)
    , (("max_tokens"), Json.num st.config.max_tokens)
    , (("stream"), Json.bool stream_flag) ]

/-- Extraction of `choices[0]["message"]["content"]` with the
`unwrap_or("")` default (services/llm.rs lines 98-101). -/
def extractAssistantContent (result : Json) : String :=
  ((((result.getField ("choices")).getIdx 0).getField ("message")).getField ("content")).asStr.getD ("")

/-- Extraction of `choices[0]["finish_reason"]` (services/llm.rs 103-105). -/
def extractFinishReason (result : Json) : Option String :=
  (((result.getField ("choices")).getIdx 0).getField ("finish_reason")).asStr

/-- QwenLLM::chat (services/llm.rs lines 58-117). The network is an oracle
mapping the request payload to an HTTP outcome whose body is the result of
`response.json()` (`Except.error` = the body was not valid JSON). Returns
the updated client state and the call result. -/
def QwenLLM.chat (st : QwenLLM) (user_message : String)
    (net : Json → HttpResult (Except String Json)) :
    QwenLLM × Except String LLMResponse :=
  let hist1 := st.conversation_history ++ [{ role := "user", content := user_message }]
  let st1 : QwenLLM := { st with conversation_history := hist1 }
  let messages := st.buildMessages user_message
  match net (st.chatPayload messages false) with
  | .sendFailure e => (st1, .error ("Failed to send LLM request: " ++ e))
  | .ok status body =>
    if statusIsSuccess status then
      match body with
      | .error e => (st1, .error ("Failed to parse LLM response: " ++ e))
      | .ok result =>
        let assistant_message := extractAssistantContent result
        let finish_reason := extractFinishReason result
        let st2 : QwenLLM :=
          { st1 with conversation_history :=
              hist1 ++ [{ role := "assistant", content := assistant_message }] }
        (st2, .ok { text := assistant_message, finish_reason := finish_reason })
    else (st1, .error ("LLM request failed with status: " ++ toString status))

/-- QwenLLM::clear_history (services/llm.rs lines 196-198). -/
def QwenLLM.clear_history (st : QwenLLM) : QwenLLM :=
  { st with conversation_history := [] }

/-- QwenLLM::set_server_url (services/llm.rs lines 206-208). -/
def QwenLLM.set_server_url (st : QwenLLM) (url : String) : QwenLLM :=
  { st with config := { st.config with server_url := url } }

/-- Value of one character of the standard base64 alphabet, `none` for any
other character (including the padding sign). -/
def b64CharVal (c : Char) : Option Nat :=
  if 'A' ≤ c ∧ c ≤ 'Z' then some (c.toNat - 65)
  else if 'a' ≤ c ∧ c ≤ 'z' then some (c.toNat - 97 + 26)
  else if '0' ≤ c ∧ c ≤ '9' then some (c.toNat - 48 + 52)
  else if c = '+' then some 62
  else if c = '/' then some 63
  else none

/-- Character for one 6-bit value of the standard base64 alphabet. -/
def b64ValChar (n : Nat) : Char :=
  if n < 26 then Char.ofNat (65 + n)
  else if n < 52 then Char.ofNat (97 + (n - 26))
  else if n < 62 then Char.ofNat (48 + (n - 52))
  else if n = 62 then '+'
  else '/'

/-- Standard base64 encoding with padding over a byte list, as the
`base64::engine::general_purpose::STANDARD` engine encodes. -/
def base64EncodeGo : List Nat → List Char
  | b0 :: b1 :: b2 :: rest =>
      b64ValChar (b0 / 4) :: b64ValChar ((b0 % 4) * 16 + b1 / 16)
        :: b64ValChar ((b1 % 16) * 4 + b2 / 64) :: b64ValChar (b2 % 64)
        :: base64EncodeGo rest
  | [b0, b1] =>
      [b64ValChar (b0 / 4), b64ValChar ((b0 % 4) * 16 + b1 / 16),
       b64ValChar ((b1 % 16) * 4), '=']
  | [b0] =>
      [b64ValChar (b0 / 4), b64ValChar ((b0 % 4) * 16), '=', '=']
  | [] => []

/-- Base64 encoding of a byte list into a string (STANDARD engine). -/
def base64Encode (bytes : List Nat) : String :=
  String.mk (base64EncodeGo bytes)

/-- Strict base64 decoding (STANDARD engine): canonical padding required,
non-alphabet characters and non-zero trailing bits rejected. -/
def base64DecodeGo : List Char → Option (List Nat)
  | [] => some []
  | c0 :: c1 :: c2 :: c3 :: rest =>
    match b64CharVal c0, b64CharVal c1 with
    | some v0, some v1 =>
      if rest = [] ∧ c3 = '=' then
        if c2 = '=' then
          if v1 % 16 = 0 then some [v0 * 4 + v1 / 16] else none
        else
          match b64CharVal c2 with
          | some v2 =>
            if v2 % 4 = 0 then some [v0 * 4 + v1 / 16, (v1 % 16) * 16 + v2 / 4]
            else none
          | none => none
      else
        match b64CharVal c2, b64CharVal c3, base64DecodeGo rest with
        | some v2, some v3, some tail =>
          some ((v0 * 4 + v1 / 16) :: ((v1 % 16) * 16 + v2 / 4) :: ((v2 % 4) * 64 + v3) :: tail)
        | _, _, _ => none
    | _, _ => none
  | _ => none

/-- Base64 decoding of a string, `none` on malformed input. -/
def base64Decode (s : String) : Option (List Nat) :=
  base64DecodeGo s.data

/-- Little-endian bytes of a `u16` value (`to_le_bytes`). -/
def u16le (n : Nat) : List Nat :=
  [n % 256, n / 256 % 256]

/-- Little-endian bytes of a `u32` value (`to_le_bytes`); values at or
above 2^32 are reduced, matching the `as u32` casts at the call sites. -/
def u32le (n : Nat) : List Nat :=
  [n % 256, n / 256 % 256, n / 2 ^ 16 % 256, n / 2 ^ 24 % 256]

/-- Little-endian bytes of an `i16` sample (two's complement). -/
def i16le (s : Int) : List Nat :=
  u16le (s % 65536).toNat

/-- WhisperLiveKit::samples_to_wav (services/asr.rs lines 92-124): the
canonical mono 16-bit PCM WAV container around the sample buffer.
`data_size` and `file_size` carry the `as u32` truncation of the source. -/
def samples_to_wav (samples : List Int) (sample_rate : Nat) : List Nat :=
  let data_size := samples.length * 2 % 2 ^ 32
  let file_size := (data_size + 36) % 2 ^ 32
  [0x52, 0x49, 0x46, 0x46] ++ u32le file_size ++ [0x57, 0x41, 0x56, 0x45]
    ++ [0x66, 0x6D, 0x74, 0x20] ++ u32le 16 ++ u16le 1 ++ u16le 1
    ++ u32le sample_rate ++ u32le (sample_rate * 2 % 2 ^ 32)
    ++ u16le 2 ++ u16le 16
    ++ [0x64, 0x61, 0x74, 0x61] ++ u32le data_size
    ++ samples.flatMap i16le

/-- Little-endian value of a byte list. -/
def leVal : List Nat → Nat
  | [] => 0
  | b :: rest => b + 256 * leVal rest

/-- Header fields recovered by a standard WAV reader. -/
structure WavInfo where
  sample_rate : Nat
  num_channels : Nat
  bits_per_sample : Nat
  data_len : Nat
  riff_size : Nat
deriving Repr, DecidableEq

/-- Modelled from the spec: `decode_wav_header` names no function of the
repository; section 8 of the spec defines it as the standard WAV layout
reader. It checks the RIFF/WAVE/fmt/data tags at their canonical offsets
and reads sample rate, channel count, bit depth, data-subchunk length and
RIFF size fields little-endian. -/
def decode_wav_header (bs : List Nat) : Option WavInfo :=
  if bs.length < 44 then none
  else if bs.take 4 = [0x52, 0x49, 0x46, 0x46]
      ∧ (bs.drop 8).take 4 = [0x57, 0x41, 0x56, 0x45]
      ∧ (bs.drop 12).take 4 = [0x66, 0x6D, 0x74, 0x20]
      ∧ (bs.drop 36).take 4 = [0x64, 0x61, 0x74, 0x61] then
    some
      { sample_rate := leVal ((bs.drop 24).take 4)
      , num_channels := leVal ((bs.drop 22).take 2)
      , bits_per_sample := leVal ((bs.drop 34).take 2)
      , data_len := leVal ((bs.drop 40).take 4)
      , riff_size := leVal ((bs.drop 4).take 4) }
  else none

/-- WhisperLiveKit ASR configuration, `WhisperConfig` in services/asr.rs. -/
structure WhisperConfig where
  server_url : String
  language : String
  model : String
deriving Repr, DecidableEq

/-- Default WhisperConfig from services/asr.rs. -/
def WhisperConfig.default : WhisperConfig where
  server_url := "http://localhost:9090"
  language := "auto"
  model := "whisper-large-v3"

/-- ASR call result, `TranscriptionResult` in services/asr.rs. -/
structure TranscriptionResult where
  text : String
  language : Option String
  duration : Option ℚ
  is_final : Bool
deriving Repr, DecidableEq

/-- The WhisperLiveKit client carries only its configuration (the reqwest
`Client` handle has no observable state). -/
structure WhisperLiveKit where
  config : WhisperConfig
deriving Repr, DecidableEq

/-- WhisperLiveKit::set_server_url (services/asr.rs lines 132-134). -/
def WhisperLiveKit.set_server_url (st : WhisperLiveKit) (url : String) : WhisperLiveKit :=
  { st with config := { st.config with server_url := url } }

/-- The request payload of `transcribe_wav` (services/asr.rs lines 52-57). -/
def WhisperLiveKit.transcribePayload (st : WhisperLiveKit) (wav_data : List Nat) : Json :=
  Json.obj
    [ (("audio"), Json.str (base64Encode wav_data))
    , (("language"), Json.str st.config.language)
    , (("model"), Json.str st.config.model)
    , (("format"), Json.str ("wav")) ]

/-- WhisperLiveKit::transcribe_wav (services/asr.rs lines 47-82). The
network oracle maps the request payload to an outcome whose body is the
result of `response.json()`. -/
def WhisperLiveKit.transcribe_wav (st : WhisperLiveKit) (wav_data : List Nat)
    (net : Json → HttpResult (Except String Json)) :
    Except String TranscriptionResult :=
  match net (st.transcribePayload wav_data) with
  | .sendFailure e => .error ("Failed to send transcription request: " ++ e)
  | .ok status body =>
    if statusIsSuccess status then
      match body with
      | .error e => .error ("Failed to parse transcription response: " ++ e)
      | .ok result =>
        .ok
          { text := ((result.getField ("text")).asStr).getD ("")
          , language := (result.getField ("language")).asStr
          , duration := (result.getField ("duration")).asF64
          , is_final := true }
    else .error ("Transcription failed with status: " ++ toString status)

/-- Substring containment test, modelling `str::contains` with a string
pattern. -/
def strContains (hay needle : String) : Bool :=
  hay.data.tails.any (fun t => needle.data.isPrefixOf t)

/-- VoxCPM TTS configuration, `VoxCPMConfig` in services/tts.rs. -/
structure VoxCPMConfig where
  server_url : String
  voice : String
  speed : ℚ
  sample_rate : Nat
deriving Repr, DecidableEq

/-- Default VoxCPMConfig from services/tts.rs. -/
def VoxCPMConfig.default : VoxCPMConfig where
  server_url := "http://localhost:5500"
  voice := "default"
  speed := 1
  sample_rate := 22050

/-- TTS call result, `TTSResult` in services/tts.rs. The duration is the
exact rational value of the f64 computation in the source. -/
structure TTSResult where
  audio_data : List Nat
  sample_rate : Nat
  duration : ℚ
deriving Repr, DecidableEq

/-- The VoxCPM client carries only its configuration. -/
structure VoxCPMTTS where
  config : VoxCPMConfig
deriving Repr, DecidableEq

/-- VoxCPMTTS::set_server_url (services/tts.rs lines 119-121). -/
def VoxCPMTTS.set_server_url (st : VoxCPMTTS) (url : String) : VoxCPMTTS :=
  { st with config := { st.config with server_url := url } }

/-- Body of a TTS HTTP response: the `content-type` header (as the header
lookup chain of services/tts.rs lines 71-75 observes it, `none` = header
missing or not valid text), the outcome of `response.json()` and the
outcome of `response.bytes()`. -/
structure TTSBody where
  content_type : Option String
  bodyJson : Except String Json
  bodyBytes : Except String (List Nat)

/-- The request payload of `synthesize` (services/tts.rs lines 50-56). -/
def VoxCPMTTS.synthesizePayload (st : VoxCPMTTS) (text : String) : Json :=
  Json.obj
    [ (("text"), Json.str text)
    , (("voice"), Json.str st.config.voice)
    , (("speed"), Json.num st.config.speed)
    , (("sample_rate"), Json.num st.config.sample_rate)
    , (("format"), Json.str ("wav")) ]

/-- VoxCPMTTS::synthesize (services/tts.rs lines 48-111): success status
check, content-type branch (JSON body with base64 `audio` field versus raw
bytes), then the computed duration `len / (sample_rate * 2)`. -/
def VoxCPMTTS.synthesize (st : VoxCPMTTS) (text : String)
    (net : Json → HttpResult TTSBody) : Except String TTSResult :=
  match net (st.synthesizePayload text) with
  | .sendFailure e => .error ("Failed to send TTS request: " ++ e)
  | .ok status body =>
    if statusIsSuccess status then
      let content_type := body.content_type.getD ("")
      let audio_data : Except String (List Nat) :=
        if strContains content_type ("application/json") then
          match body.bodyJson with
          | .error e => .error ("Failed to parse TTS response: " ++ e)
          | .ok result =>
            match (result.getField ("audio")).asStr with
            | none => .error ("Missing audio data in response")
            | some audio_base64 =>
              match base64Decode audio_base64 with
              | none => .error ("Failed to decode audio data: invalid base64")
              | some bytes => .ok bytes
        else
          match body.bodyBytes with
          | .error e => .error ("Failed to read audio bytes: " ++ e)
          | .ok bytes => .ok bytes
      match audio_data with
      | .error e => .error e
      | .ok bytes =>
        .ok
          { audio_data := bytes
          , sample_rate := st.config.sample_rate
          , duration := (bytes.length : ℚ) / ((st.config.sample_rate : ℚ) * 2) }
    else .error ("TTS request failed with status: " ++ toString status)

/-- Character-level prefix test (the `str::starts_with` of the source,
made kernel-reducible). -/
def strStartsWith (s pre : String) : Bool :=
  pre.data.isPrefixOf s.data

/-- Character-level drop (the `&line[6..]` slice of the source; the
prefix just tested is ASCII, so bytes and characters coincide). -/
def strDrop (s : String) (n : Nat) : String :=
  String.mk (s.data.drop n)

/-- Splitting a character list at every occurrence of a separator. -/
def splitChar (sep : Char) : List Char → List (List Char)
  | [] => [[]]
  | c :: t =>
    match splitChar sep t with
    | [] => [[c]]
    | h :: r => if c = sep then [] :: h :: r else (c :: h) :: r

/-- Line splitting of `str::lines`: split on a newline, drop the final
empty piece produced by a trailing newline, strip one trailing carriage
return from each line. -/
def rustLines (s : String) : List String :=
  let parts := (splitChar '\n' s.data).map String.mk
  let parts := if parts.getLast? = some ("") then parts.dropLast else parts
  parts.map (fun l =>
    if l.data.getLast? = some '\r' then String.mk l.data.dropLast else l)

/-- Extraction of `choices[0]["delta"]["content"]` from one streaming
event (services/llm.rs line 174). -/
def extractDeltaContent (json : Json) : Option String :=
  ((((json.getField ("choices")).getIdx 0).getField ("delta")).getField ("content")).asStr

/-- The inner loop of `chat_stream` over the lines of one network chunk
(services/llm.rs lines 166-180): only lines with the `data: ` marker
carry payload; a `[DONE]` payload breaks out of this loop (and only this
loop); any other payload is handed to the JSON parser `fromStr` (the
`serde_json::from_str` oracle) and, when `choices[0].delta.content` is a
string, that content extends the accumulator `acc` and is recorded in
`calls` as one `on_chunk` invocation. -/
def sseChunkLines (fromStr : String → Option Json) :
    List String → String → List String → String × List String
  | [], acc, calls => (acc, calls)
  | line :: rest, acc, calls =>
    if strStartsWith line ("data: ") then
      let data := strDrop line 6
      if data = "[DONE]" then (acc, calls)
      else
        match fromStr data with
        | some json =>
          match extractDeltaContent json with
          | some content => sseChunkLines fromStr rest (acc ++ content) (calls ++ [content])
          | none => sseChunkLines fromStr rest acc calls
        | none => sseChunkLines fromStr rest acc calls
    else sseChunkLines fromStr rest acc calls

/-- The outer loop of `chat_stream` over network chunks (services/llm.rs
lines 161-181): each chunk either is a stream error (which aborts with a
`Stream error` message) or a text whose lines feed `sseChunkLines`.
Returns the accumulator, the `on_chunk` record and the error, if any. -/
def sseFold (fromStr : String → Option Json) :
    List (Except String String) → String → List String →
    String × List String × Option String
  | [], acc, calls => (acc, calls, none)
  | .error e :: _, acc, calls => (acc, calls, some ("Stream error: " ++ e))
  | .ok chunk :: rest, acc, calls =>
    let r := sseChunkLines fromStr (rustLines chunk) acc calls
    sseFold fromStr rest r.1 r.2

/-- QwenLLM::chat_stream (services/llm.rs lines 120-193). `fromStr` is the
`serde_json::from_str` oracle; the network oracle answers the request
payload with the sequence of byte chunks of the response body (each chunk
already decoded to text, or a stream error). Returns the updated client,
the list of `on_chunk` invocations, and the result. -/
def QwenLLM.chat_stream (st : QwenLLM) (user_message : String)
    (fromStr : String → Option Json)
    (net : Json → HttpResult (List (Except String String))) :
    QwenLLM × List String × Except String LLMResponse :=
  let hist1 := st.conversation_history ++ [{ role := "user", content := user_message }]
  let st1 : QwenLLM := { st with conversation_history := hist1 }
  let messages := st.buildMessages user_message
  match net (st.chatPayload messages true) with
  | .sendFailure e => (st1, [], .error ("Failed to send streaming LLM request: " ++ e))
  | .ok status chunks =>
    if statusIsSuccess status then
      match sseFold fromStr chunks ("") [] with
      | (_, calls, some e) => (st1, calls, .error e)
      | (full_response, calls, none) =>
        let st2 : QwenLLM :=
          { st1 with conversation_history :=
              hist1 ++ [{ role := "assistant", content := full_response }] }
        (st2, calls, .ok { text := full_response, finish_reason := some ("stop") })
    else (st1, [], .error ("Streaming LLM request failed with status: " ++ toString status))

/-- Unicode White_Space test, matching `char::is_whitespace` of Rust. -/
def rustIsWhitespace (c : Char) : Bool :=
  let n := c.toNat
  if 0x09 ≤ n ∧ n ≤ 0x0D then true
  else if n = 0x20 ∨ n = 0x85 ∨ n = 0xA0 ∨ n = 0x1680 then true
  else if 0x2000 ≤ n ∧ n ≤ 0x200A then true
  else if n = 0x2028 ∨ n = 0x2029 ∨ n = 0x202F ∨ n = 0x205F ∨ n = 0x3000 then true
  else false

/-- The `str::trim` of Rust: strip leading and trailing whitespace. -/
def rustTrim (s : String) : String :=
  String.mk (((s.data.dropWhile rustIsWhitespace).reverse.dropWhile rustIsWhitespace).reverse)

/-- Application state (`AppState` in lib.rs): the three service clients
and the listening flag. The per-client mutexes serialize access; one
command invocation is modelled as a function of this state, so lock
acquisition order is reflected by the sequencing of state updates. -/
structure AppState where
  asr : WhisperLiveKit
  llm : QwenLLM
  tts : VoxCPMTTS
  is_listening : Bool

/-- AppState::new (lib.rs lines 29-39). -/
def AppState.new : AppState :=
  { asr := { config := WhisperConfig.default }
  , llm := QwenLLM.new QwenConfig.default
  , tts := { config := VoxCPMConfig.default }
  , is_listening := false }

/-- Frontend service configuration, `ServiceConfig` in lib.rs. -/
structure ServiceConfig where
  asr_url : String
  llm_url : String
  tts_url : String
deriving Repr, DecidableEq

/-- Result shape returned to the frontend, `ProcessingResult` in lib.rs. -/
structure ProcessingResult where
  status : String
  transcription : Option String
  response : Option String
  audio_ready : Bool
deriving Repr, DecidableEq

/-- Observable actions of one command: events emitted to the frontend and
outbound HTTP calls issued to the three services. -/
inductive Ev where
  | emit (name : String) (payload : String) : Ev
  | asrCall : Ev
  | llmCall : Ev
  | ttsCall : Ev
deriving Repr, DecidableEq

/-- Selects the HTTP-call entries of a trace. -/
def Ev.isCall (e : Ev) : Bool :=
  match e with
  | .emit _ _ => false
  | _ => true

/-- Bundle of the three network oracles a turn may consult, plus the
`serde_json::from_str` oracle of the streaming path. -/
structure NetOracles where
  asrNet : Json → HttpResult (Except String Json)
  llmNet : Json → HttpResult (Except String Json)
  ttsNet : Json → HttpResult TTSBody

/-- Outcome of one command: updated state, the trace of events and calls
in order, and the value returned to the caller. -/
structure CommandOutcome (α : Type) where
  state : AppState
  trace : List Ev
  ret : Except String α

/-- The process_audio command (lib.rs lines 122-184): base64-decode the
input, emit `Transcribing...`, run ASR, emit the transcription, return the
`empty` result when the trimmed text is empty, otherwise emit
`Thinking...`, run the LLM chat (mutating history), emit the response,
emit `Generating audio...`, run TTS, emit the base64 audio, and return the
`complete` result. Every `?` early return of the source is an `.error`
return here, with all mutations already performed left in place. -/
def process_audio (st : AppState) (audio_base64 : String) (nets : NetOracles) :
    CommandOutcome ProcessingResult :=
  match base64Decode audio_base64 with
  | none =>
    { state := st, trace := []
    , ret := .error ("Failed to decode audio: invalid base64") }
  | some audio_data =>
    let ev0 : List Ev := [.emit ("processing-status") ("Transcribing..."), .asrCall]
    match st.asr.transcribe_wav audio_data nets.asrNet with
    | .error e => { state := st, trace := ev0, ret := .error e }
    | .ok transcription =>
      let transcribed_text := transcription.text
      let ev1 := ev0 ++ [.emit ("transcription") transcribed_text]
      if (rustTrim transcribed_text).isEmpty then
        { state := st, trace := ev1
        , ret := .ok
            { status := "empty", transcription := some transcribed_text
            , response := none, audio_ready := false } }
      else
        let ev2 := ev1 ++ [.emit ("processing-status") ("Thinking..."), .llmCall]
        match st.llm.chat transcribed_text nets.llmNet with
        | (llm1, .error e) =>
          { state := { st with llm := llm1 }, trace := ev2, ret := .error e }
        | (llm1, .ok llm_response) =>
          let st1 : AppState := { st with llm := llm1 }
          let response_text := llm_response.text
          let ev3 := ev2 ++ [.emit ("llm-response") response_text,
            .emit ("processing-status") ("Generating audio..."), .ttsCall]
          match st1.tts.synthesize response_text nets.ttsNet with
          | .error e => { state := st1, trace := ev3, ret := .error e }
          | .ok tts_result =>
            let ev4 := ev3 ++ [.emit ("tts-audio") (base64Encode tts_result.audio_data)]
            { state := st1, trace := ev4
            , ret := .ok
                { status := "complete", transcription := some transcribed_text
                , response := some response_text, audio_ready := true } }

/-- The send_text_message command (lib.rs lines 219-251): the same
pipeline without the ASR stage; the transcription field echoes the
input. -/
def send_text_message (st : AppState) (message : String) (nets : NetOracles) :
    CommandOutcome ProcessingResult :=
  let ev0 : List Ev := [.emit ("processing-status") ("Thinking..."), .llmCall]
  match st.llm.chat message nets.llmNet with
  | (llm1, .error e) =>
    { state := { st with llm := llm1 }, trace := ev0, ret := .error e }
  | (llm1, .ok llm_response) =>
    let st1 : AppState := { st with llm := llm1 }
    let response_text := llm_response.text
    let ev1 := ev0 ++ [.emit ("llm-response") response_text,
      .emit ("processing-status") ("Generating audio..."), .ttsCall]
    match st1.tts.synthesize response_text nets.ttsNet with
    | .error e => { state := st1, trace := ev1, ret := .error e }
    | .ok tts_result =>
      let ev2 := ev1 ++ [.emit ("tts-audio") (base64Encode tts_result.audio_data)]
      { state := st1, trace := ev2
      , ret := .ok
          { status := "complete", transcription := some message
          , response := some response_text, audio_ready := true } }

/-- The configure_services command (lib.rs lines 188-206): set the base
URL of each client in turn (ASR, then LLM, then TTS); never fails. -/
def configure_services (st : AppState) (config : ServiceConfig) : AppState :=
  let st := { st with asr := st.asr.set_server_url config.asr_url }
  let st := { st with llm := st.llm.set_server_url config.llm_url }
  { st with tts := st.tts.set_server_url config.tts_url }

/-- The clear_conversation command (lib.rs lines 210-215). -/
def clear_conversation (st : AppState) : AppState :=
  { st with llm := st.llm.clear_history }

/-- Constant JSON-body network stub, for concrete witnesses. -/
def stubNetJson (status : Nat) (body : Except String Json) :
    Json → HttpResult (Except String Json) :=
  fun _ => .ok status body

/-- Transport-failure network stub, for concrete witnesses. -/
def stubNetFail (e : String) : Json → HttpResult (Except String Json) :=
  fun _ => .sendFailure e

/-- Constant TTS network stub, for concrete witnesses. -/
def stubNetTTS (status : Nat) (body : TTSBody) : Json → HttpResult TTSBody :=
  fun _ => .ok status body

/-- TTS network stub that fails at transport, for concrete witnesses. -/
def stubNetTTSFail (e : String) : Json → HttpResult TTSBody :=
  fun _ => .sendFailure e

/-! Helper lemmas shared by several claim proofs. -/

/-- Shape of a successful chat call: both components of the result. -/
theorem QwenLLM.chat_success_eq (st : QwenLLM) (u : String)
    (net : Json → HttpResult (Except String Json)) (status : Nat) (j : Json)
    (hnet : net (st.chatPayload (st.buildMessages u) false) = .ok status (.ok j))
    (hst : statusIsSuccess status = true) :
    st.chat u net =
      ({ st with conversation_history :=
          st.conversation_history
            ++ [{ role := "user", content := u },
                { role := "assistant", content := extractAssistantContent j }] },
       .ok { text := extractAssistantContent j, finish_reason := extractFinishReason j }) := by
  unfold QwenLLM.chat
  dsimp only
  rw [hnet]
  simp [hst, List.append_assoc]

/-- A claim-C1 theorem: after a successful chat call the history grows by
exactly the user message followed by the assistant message carrying the
extracted content — the assistant entry is appended even when the content
is empty. -/
theorem chat_success_appends_user_then_assistant (st : QwenLLM) (u : String)
    (net : Json → HttpResult (Except String Json)) (status : Nat) (j : Json)
    (hnet : net (st.chatPayload (st.buildMessages u) false) = .ok status (.ok j))
    (hst : statusIsSuccess status = true) :
    (st.chat u net).1.conversation_history =
      st.conversation_history
        ++ [{ role := "user", content := u },
            { role := "assistant", content := extractAssistantContent j }]
    ∧ (st.chat u net).2 =
        .ok { text := extractAssistantContent j, finish_reason := extractFinishReason j } := by
  rw [QwenLLM.chat_success_eq st u net status j hnet hst]
  exact ⟨rfl, rfl⟩

/-- Witness for C1 at a concrete input: a degenerate server answer with no
choices still appends an (empty-content) assistant entry. -/
theorem chat_success_appends_user_then_assistant_witness :
    ((QwenLLM.new QwenConfig.default).chat ("hi")
        (stubNetJson 200 (.ok (Json.obj [])))).1.conversation_history =
      [{ role := "user", content := "hi" }, { role := "assistant", content := "" }]
    ∧ ((QwenLLM.new QwenConfig.default).chat ("hi")
        (stubNetJson 200 (.ok (Json.obj [])))).2 =
        .ok { text := "", finish_reason := none } :=
  chat_success_appends_user_then_assistant (QwenLLM.new QwenConfig.default) ("hi")
    (stubNetJson 200 (.ok (Json.obj []))) 200 (Json.obj []) rfl (by decide)

/-- A claim-C6 theorem: a cleared history followed by a chat call sends
exactly the system prompt and the single new user message — both in the
message list the call builds and in the `messages` field of the payload it
posts. -/
theorem clear_then_chat_sends_system_and_user_only (st : QwenLLM) (u : String) :
    (st.clear_history).buildMessages u =
      [{ role := "system", content := st.config.system_prompt },
       { role := "user", content := u }]
    ∧ (((st.clear_history).chatPayload ((st.clear_history).buildMessages u) false).getField
          ("messages"))
        = Json.arr
            [ChatMessage.toJson { role := "system", content := st.config.system_prompt },
             ChatMessage.toJson { role := "user", content := u }] :=
  ⟨rfl, rfl⟩

/-- Shape of a failed chat call: only the user message was appended. -/
theorem QwenLLM.chat_failure_eq (st : QwenLLM) (u : String)
    (net : Json → HttpResult (Except String Json))
    (hfail :
      (∃ e, net (st.chatPayload (st.buildMessages u) false) = .sendFailure e)
      ∨ (∃ status body, net (st.chatPayload (st.buildMessages u) false) = .ok status body
          ∧ statusIsSuccess status = false)
      ∨ (∃ status e, net (st.chatPayload (st.buildMessages u) false) = .ok status (.error e)
          ∧ statusIsSuccess status = true)) :
    (st.chat u net).1 =
      { st with conversation_history :=
          st.conversation_history ++ [{ role := "user", content := u }] }
    ∧ ∃ msg, (st.chat u net).2 = Except.error msg := by
  rcases hfail with ⟨e, hnet⟩ | ⟨status, body, hnet, hst⟩ | ⟨status, e, hnet, hst⟩
  · unfold QwenLLM.chat
    dsimp only
    rw [hnet]
    exact ⟨rfl, _, rfl⟩
  · unfold QwenLLM.chat
    dsimp only
    rw [hnet]
    simp [hst]
  · unfold QwenLLM.chat
    dsimp only
    rw [hnet]
    simp [hst]

/-- A claim-C10 theorem: when the chat call itself fails (transport
failure, non-success status, or a non-JSON body), the history has grown by
exactly the user message, with no assistant entry, and the next chat call
includes that orphaned user message in its outbound message list. -/
theorem chat_failure_leaves_orphan_user (st : QwenLLM) (u u2 : String)
    (net : Json → HttpResult (Except String Json))
    (hfail :
      (∃ e, net (st.chatPayload (st.buildMessages u) false) = .sendFailure e)
      ∨ (∃ status body, net (st.chatPayload (st.buildMessages u) false) = .ok status body
          ∧ statusIsSuccess status = false)
      ∨ (∃ status e, net (st.chatPayload (st.buildMessages u) false) = .ok status (.error e)
          ∧ statusIsSuccess status = true)) :
    (st.chat u net).1.conversation_history =
      st.conversation_history ++ [{ role := "user", content := u }]
    ∧ (∃ msg, (st.chat u net).2 = Except.error msg)
    ∧ (st.chat u net).1.buildMessages u2 =
        { role := "system", content := st.config.system_prompt }
          :: (st.conversation_history
              ++ [{ role := "user", content := u }, { role := "user", content := u2 }]) := by
  obtain ⟨hstate, hmsg⟩ := QwenLLM.chat_failure_eq st u net hfail
  rw [hstate]
  refine ⟨rfl, hmsg, ?_⟩
  simp [QwenLLM.buildMessages]

/-- Witness for C10 at a concrete input: a transport failure leaves the
lone user message in history and in the next outbound list. -/
theorem chat_failure_leaves_orphan_user_witness :
    ((QwenLLM.new QwenConfig.default).chat ("hi") (stubNetFail ("down"))).1.conversation_history =
      [{ role := "user", content := "hi" }]
    ∧ (∃ msg, ((QwenLLM.new QwenConfig.default).chat ("hi") (stubNetFail ("down"))).2
        = Except.error msg)
    ∧ ((QwenLLM.new QwenConfig.default).chat ("hi") (stubNetFail ("down"))).1.buildMessages
        ("again") =
        [{ role := "system", content := QwenConfig.default.system_prompt },
         { role := "user", content := "hi" }, { role := "user", content := "again" }] :=
  chat_failure_leaves_orphan_user (QwenLLM.new QwenConfig.default) ("hi") ("again")
    (stubNetFail ("down")) (Or.inl ⟨"down", rfl⟩)

/-- A claim-C8 theorem: on a success status with a valid JSON body,
transcribe_wav never fails — a missing `text` field defaults to the empty
string, `language` and `duration` default to `none`, and `is_final` is
always true; an error arises exactly from a non-JSON body or a
non-success status. -/
theorem transcribe_wav_lenient_fields_strict_envelope (st : WhisperLiveKit)
    (wav : List Nat) (net : Json → HttpResult (Except String Json)) :
    (∀ status j, net (st.transcribePayload wav) = .ok status (.ok j) →
      statusIsSuccess status = true →
      st.transcribe_wav wav net =
        .ok
          { text := ((j.getField ("text")).asStr).getD ("")
          , language := (j.getField ("language")).asStr
          , duration := (j.getField ("duration")).asF64
          , is_final := true })
    ∧ (∀ status e, net (st.transcribePayload wav) = .ok status (.error e) →
        statusIsSuccess status = true →
        st.transcribe_wav wav net =
          .error ("Failed to parse transcription response: " ++ e))
    ∧ (∀ status body, net (st.transcribePayload wav) = .ok status body →
        statusIsSuccess status = false →
        st.transcribe_wav wav net =
          .error ("Transcription failed with status: " ++ toString status)) := by
  refine ⟨?_, ?_, ?_⟩
  · intro status j hnet hst
    unfold WhisperLiveKit.transcribe_wav
    rw [hnet]
    simp [hst]
  · intro status e hnet hst
    unfold WhisperLiveKit.transcribe_wav
    rw [hnet]
    simp [hst]
  · intro status body hnet hst
    unfold WhisperLiveKit.transcribe_wav
    rw [hnet]
    simp [hst]

/-- Witness for C8 at a concrete input: an empty JSON object body yields
the all-default result with `is_final = true`. -/
theorem transcribe_wav_lenient_fields_strict_envelope_witness :
    ({ config := WhisperConfig.default } : WhisperLiveKit).transcribe_wav []
        (stubNetJson 200 (.ok (Json.obj []))) =
      .ok { text := "", language := none, duration := none, is_final := true } :=
  (transcribe_wav_lenient_fields_strict_envelope
      ({ config := WhisperConfig.default } : WhisperLiveKit) []
      (stubNetJson 200 (.ok (Json.obj [])))).1 200 (Json.obj []) rfl (by decide)

/-- A claim-C7 theorem: on a success status, synthesize branches on the
content-type header — with `application/json` it parses the JSON body and
base64-decodes its `audio` field, a missing field yielding the service
error and malformed base64 the decode error; any other content-type takes
the whole body as the raw audio bytes. -/
theorem synthesize_content_type_branches (st : VoxCPMTTS) (text : String)
    (net : Json → HttpResult TTSBody) :
    (∀ status body j, net (st.synthesizePayload text) = .ok status body →
      statusIsSuccess status = true →
      strContains (body.content_type.getD ("")) ("application/json") = true →
      body.bodyJson = .ok j → (j.getField ("audio")).asStr = none →
      st.synthesize text net = .error ("Missing audio data in response"))
    ∧ (∀ status body j s, net (st.synthesizePayload text) = .ok status body →
        statusIsSuccess status = true →
        strContains (body.content_type.getD ("")) ("application/json") = true →
        body.bodyJson = .ok j → (j.getField ("audio")).asStr = some s →
        base64Decode s = none →
        st.synthesize text net = .error ("Failed to decode audio data: invalid base64"))
    ∧ (∀ status body j s bytes, net (st.synthesizePayload text) = .ok status body →
        statusIsSuccess status = true →
        strContains (body.content_type.getD ("")) ("application/json") = true →
        body.bodyJson = .ok j → (j.getField ("audio")).asStr = some s →
        base64Decode s = some bytes →
        st.synthesize text net =
          .ok
            { audio_data := bytes
            , sample_rate := st.config.sample_rate
            , duration := (bytes.length : ℚ) / ((st.config.sample_rate : ℚ) * 2) })
    ∧ (∀ status body bytes, net (st.synthesizePayload text) = .ok status body →
        statusIsSuccess status = true →
        strContains (body.content_type.getD ("")) ("application/json") = false →
        body.bodyBytes = .ok bytes →
        st.synthesize text net =
          .ok
            { audio_data := bytes
            , sample_rate := st.config.sample_rate
            , duration := (bytes.length : ℚ) / ((st.config.sample_rate : ℚ) * 2) }) := by
  refine ⟨?_, ?_, ?_, ?_⟩
  · intro status body j hnet hst hct hjson haudio
    unfold VoxCPMTTS.synthesize
    rw [hnet]
    simp [hst, hct, hjson, haudio]
  · intro status body j s hnet hst hct hjson haudio hdec
    unfold VoxCPMTTS.synthesize
    rw [hnet]
    simp [hst, hct, hjson, haudio, hdec]
  · intro status body j s bytes hnet hst hct hjson haudio hdec
    unfold VoxCPMTTS.synthesize
    rw [hnet]
    simp [hst, hct, hjson, haudio, hdec]
  · intro status body bytes hnet hst hct hbytes
    unfold VoxCPMTTS.synthesize
    rw [hnet]
    simp [hst, hct, hbytes]

/-- Witness for C7 at a concrete input: a JSON response without an `audio`
field yields the missing-data service error. -/
theorem synthesize_content_type_branches_witness :
    ({ config := VoxCPMConfig.default } : VoxCPMTTS).synthesize ("hello")
        (stubNetTTS 200
          { content_type := some ("application/json")
          , bodyJson := .ok (Json.obj []), bodyBytes := .ok [] }) =
      .error ("Missing audio data in response") :=
  (synthesize_content_type_branches ({ config := VoxCPMConfig.default } : VoxCPMTTS)
      ("hello")
      (stubNetTTS 200
        { content_type := some ("application/json")
        , bodyJson := .ok (Json.obj []), bodyBytes := .ok [] })).1 200
    { content_type := some ("application/json")
    , bodyJson := .ok (Json.obj []), bodyBytes := .ok [] }
    (Json.obj []) rfl (by decide) (by decide) rfl rfl

/-- A claim-C9 theorem: every successful synthesize call computes its
duration from the byte count as `len / (sample_rate * 2)` — never a value
taken from the server — and with sample_rate 22050 and a JSON body whose
`audio` field is the base64 of N bytes the duration is `N / 44100`. -/
theorem synthesize_duration_from_byte_count (st : VoxCPMTTS) (text : String)
    (net : Json → HttpResult TTSBody) :
    (∀ r, st.synthesize text net = .ok r →
      r.duration = (r.audio_data.length : ℚ) / ((st.config.sample_rate : ℚ) * 2)
      ∧ r.sample_rate = st.config.sample_rate)
    ∧ (∀ status body j s bytes, st.config.sample_rate = 22050 →
        net (st.synthesizePayload text) = .ok status body →
        statusIsSuccess status = true →
        strContains (body.content_type.getD ("")) ("application/json") = true →
        body.bodyJson = .ok j → (j.getField ("audio")).asStr = some s →
        base64Decode s = some bytes →
        st.synthesize text net =
          .ok
            { audio_data := bytes
            , sample_rate := 22050
            , duration := (bytes.length : ℚ) / 44100 }) := by
  constructor
  · intro r h
    unfold VoxCPMTTS.synthesize at h
    cases hnp : net (st.synthesizePayload text) with
    | sendFailure e => rw [hnp] at h; simp at h
    | ok status body =>
      rw [hnp] at h
      by_cases hst : statusIsSuccess status = true
      · simp only [hst, if_true] at h
        split at h
        · cases h
        · rename_i bytes heq
          cases h
          exact ⟨rfl, rfl⟩
      · simp [hst] at h
  · intro status body j s bytes hsr hnet hst hct hjson haudio hdec
    unfold VoxCPMTTS.synthesize
    rw [hnet]
    simp [hst, hct, hjson, haudio, hdec, hsr]
    norm_num

/-- Witness for C9 at a concrete input: four base64 characters decode to
three bytes, giving duration 3 / 44100. -/
theorem synthesize_duration_from_byte_count_witness :
    ({ config := VoxCPMConfig.default } : VoxCPMTTS).synthesize ("hello")
        (stubNetTTS 200
          { content_type := some ("application/json")
          , bodyJson := .ok (Json.obj [(("audio"), Json.str ("AAAA"))])
          , bodyBytes := .ok [] }) =
      .ok { audio_data := [0, 0, 0], sample_rate := 22050, duration := (3 : ℚ) / 44100 } :=
  (synthesize_duration_from_byte_count ({ config := VoxCPMConfig.default } : VoxCPMTTS)
      ("hello")
      (stubNetTTS 200
        { content_type := some ("application/json")
        , bodyJson := .ok (Json.obj [(("audio"), Json.str ("AAAA"))])
        , bodyBytes := .ok [] })).2 200
    { content_type := some ("application/json")
    , bodyJson := .ok (Json.obj [(("audio"), Json.str ("AAAA"))])
    , bodyBytes := .ok [] }
    (Json.obj [(("audio"), Json.str ("AAAA"))]) ("AAAA") [0, 0, 0] rfl rfl (by decide)
    (by decide) rfl rfl (by decide)

/-- Each encoded sample contributes exactly two bytes. -/
theorem flatMap_i16le_length (S : List Int) : (S.flatMap i16le).length = 2 * S.length := by
  induction S with
  | nil => rfl
  | cons a t ih => simp [List.flatMap_cons, i16le, u16le, ih]; ring

/-- Little-endian round trip for 32-bit values. -/
theorem leVal_u32le (n : Nat) (h : n < 2 ^ 32) : leVal (u32le n) = n := by
  simp [u32le, leVal]
  omega

/-- Evaluation of the standard WAV reader on the byte layout the encoder
emits, with the four variable-byte fields left symbolic. -/
theorem decode_wav_header_explicit (f0 f1 f2 f3 r0 r1 r2 r3 b0 b1 b2 b3 d0 d1 d2 d3 : Nat)
    (rest : List Nat) :
    decode_wav_header (0x52 :: 0x49 :: 0x46 :: 0x46 :: f0 :: f1 :: f2 :: f3
        :: 0x57 :: 0x41 :: 0x56 :: 0x45 :: 0x66 :: 0x6D :: 0x74 :: 0x20
        :: 16 :: 0 :: 0 :: 0 :: 1 :: 0 :: 1 :: 0
        :: r0 :: r1 :: r2 :: r3 :: b0 :: b1 :: b2 :: b3
        :: 2 :: 0 :: 16 :: 0 :: 0x64 :: 0x61 :: 0x74 :: 0x61
        :: d0 :: d1 :: d2 :: d3 :: rest) =
      some
        { sample_rate := leVal [r0, r1, r2, r3], num_channels := leVal [1, 0]
        , bits_per_sample := leVal [16, 0], data_len := leVal [d0, d1, d2, d3]
        , riff_size := leVal [f0, f1, f2, f3] } := by
  unfold decode_wav_header
  rw [if_neg (by simp only [List.length_cons]; omega), if_pos ⟨rfl, rfl, rfl, rfl⟩]
  rfl

/-- The encoder output, written as an explicit byte sequence. -/
theorem samples_to_wav_eq (S : List Int) (R : Nat) :
    samples_to_wav S R =
      0x52 :: 0x49 :: 0x46 :: 0x46
        :: ((S.length * 2 % 2 ^ 32 + 36) % 2 ^ 32 % 256)
        :: ((S.length * 2 % 2 ^ 32 + 36) % 2 ^ 32 / 256 % 256)
        :: ((S.length * 2 % 2 ^ 32 + 36) % 2 ^ 32 / 2 ^ 16 % 256)
        :: ((S.length * 2 % 2 ^ 32 + 36) % 2 ^ 32 / 2 ^ 24 % 256)
        :: 0x57 :: 0x41 :: 0x56 :: 0x45 :: 0x66 :: 0x6D :: 0x74 :: 0x20
        :: 16 :: 0 :: 0 :: 0 :: 1 :: 0 :: 1 :: 0
        :: (R % 256) :: (R / 256 % 256) :: (R / 2 ^ 16 % 256) :: (R / 2 ^ 24 % 256)
        :: (R * 2 % 2 ^ 32 % 256) :: (R * 2 % 2 ^ 32 / 256 % 256)
        :: (R * 2 % 2 ^ 32 / 2 ^ 16 % 256) :: (R * 2 % 2 ^ 32 / 2 ^ 24 % 256)
        :: 2 :: 0 :: 16 :: 0 :: 0x64 :: 0x61 :: 0x74 :: 0x61
        :: (S.length * 2 % 2 ^ 32 % 256) :: (S.length * 2 % 2 ^ 32 / 256 % 256)
        :: (S.length * 2 % 2 ^ 32 / 2 ^ 16 % 256) :: (S.length * 2 % 2 ^ 32 / 2 ^ 24 % 256)
        :: S.flatMap i16le := rfl

/-- A claim-C5 theorem: the standard WAV reader recovers from the encoder
output the sample rate, channel count 1, 16 bits per sample, and a data
length of 2 per sample; the total length is the 44-byte header plus the
data, and the RIFF size field is the total length minus 8 (computed, not
hard-coded; the empty buffer gives a header-only container with a
zero-length data subchunk). -/
theorem samples_to_wav_header_roundtrip (S : List Int) (R : Nat) (hR : R < 2 ^ 32)
    (hS : 2 * S.length + 36 < 2 ^ 32) :
    decode_wav_header (samples_to_wav S R) =
      some
        { sample_rate := R, num_channels := 1, bits_per_sample := 16
        , data_len := 2 * S.length, riff_size := 2 * S.length + 36 }
    ∧ (samples_to_wav S R).length = 44 + 2 * S.length := by
  have hr : leVal [R % 256, R / 256 % 256, R / 2 ^ 16 % 256, R / 2 ^ 24 % 256] = R :=
    leVal_u32le R hR
  have hd : leVal [S.length * 2 % 2 ^ 32 % 256, S.length * 2 % 2 ^ 32 / 256 % 256,
      S.length * 2 % 2 ^ 32 / 2 ^ 16 % 256, S.length * 2 % 2 ^ 32 / 2 ^ 24 % 256]
      = 2 * S.length := by
    have h1 : S.length * 2 % 2 ^ 32 = 2 * S.length := by omega
    rw [h1]
    exact leVal_u32le (2 * S.length) (by omega)
  have hf : leVal [(S.length * 2 % 2 ^ 32 + 36) % 2 ^ 32 % 256,
      (S.length * 2 % 2 ^ 32 + 36) % 2 ^ 32 / 256 % 256,
      (S.length * 2 % 2 ^ 32 + 36) % 2 ^ 32 / 2 ^ 16 % 256,
      (S.length * 2 % 2 ^ 32 + 36) % 2 ^ 32 / 2 ^ 24 % 256] = 2 * S.length + 36 := by
    have h1 : (S.length * 2 % 2 ^ 32 + 36) % 2 ^ 32 = 2 * S.length + 36 := by omega
    rw [h1]
    exact leVal_u32le (2 * S.length + 36) (by omega)
  constructor
  · rw [samples_to_wav_eq, decode_wav_header_explicit, hr, hd, hf]
    rfl
  · rw [samples_to_wav_eq]
    simp only [List.length_cons, flatMap_i16le_length]
    omega

/-- Witness for C5 at a concrete input: the empty sample buffer at rate
8000 yields the 44-byte header-only container with a zero data length and
RIFF size 36. -/
theorem samples_to_wav_header_roundtrip_witness :
    decode_wav_header (samples_to_wav [] 8000) =
      some
        { sample_rate := 8000, num_channels := 1, bits_per_sample := 16
        , data_len := 0, riff_size := 36 }
    ∧ (samples_to_wav [] 8000).length = 44 :=
  samples_to_wav_header_roundtrip [] 8000 (by norm_num) (by norm_num)

/-- Shape of a successful transcription call. -/
theorem WhisperLiveKit.transcribe_wav_success_eq (st : WhisperLiveKit) (wav : List Nat)
    (net : Json → HttpResult (Except String Json)) (status : Nat) (j : Json)
    (hnet : net (st.transcribePayload wav) = .ok status (.ok j))
    (hst : statusIsSuccess status = true) :
    st.transcribe_wav wav net =
      .ok
        { text := ((j.getField ("text")).asStr).getD ("")
        , language := (j.getField ("language")).asStr
        , duration := (j.getField ("duration")).asF64
        , is_final := true } := by
  unfold WhisperLiveKit.transcribe_wav
  rw [hnet]
  simp [hst]

/-- A claim-C2 theorem: when the transcription comes back empty or
whitespace-only, process_audio short-circuits — the returned result is
`status = "empty"` with the transcription echoed, no response and
`audio_ready = false`, the state is untouched, and the only outbound HTTP
call in the trace is the ASR call (no LLM call, no TTS call). -/
theorem process_audio_empty_short_circuit (st : AppState) (input : String)
    (nets : NetOracles) (audio : List Nat) (status : Nat) (j : Json)
    (hdec : base64Decode input = some audio)
    (hnet : nets.asrNet (st.asr.transcribePayload audio) = .ok status (.ok j))
    (hst : statusIsSuccess status = true)
    (hempty : (rustTrim (((j.getField ("text")).asStr).getD (""))).isEmpty = true) :
    (process_audio st input nets).ret =
      .ok
        { status := "empty"
        , transcription := some (((j.getField ("text")).asStr).getD (""))
        , response := none, audio_ready := false }
    ∧ (process_audio st input nets).state = st
    ∧ (process_audio st input nets).trace.filter Ev.isCall = [Ev.asrCall] := by
  unfold process_audio
  rw [hdec]
  dsimp only
  rw [WhisperLiveKit.transcribe_wav_success_eq st.asr audio nets.asrNet status j hnet hst]
  dsimp only
  rw [if_pos hempty]
  refine ⟨rfl, rfl, ?_⟩
  simp [Ev.isCall]

/-- Witness for C2 at the concrete scenario of the spec: configured
endpoints, a silence WAV, and a stub ASR answering an empty text field
yield the empty result with exactly one outbound call, to ASR only. -/
theorem process_audio_empty_short_circuit_witness :
    (process_audio
        (configure_services AppState.new
          { asr_url := "http://a", llm_url := "http://b", tts_url := "http://c" })
        (base64Encode (samples_to_wav [] 16000))
        { asrNet := stubNetJson 200 (.ok (Json.obj [(("text"), Json.str (""))]))
        , llmNet := stubNetFail ("unused")
        , ttsNet := stubNetTTSFail ("unused") }).ret =
      .ok
        { status := "empty", transcription := some ""
        , response := none, audio_ready := false }
    ∧ (process_audio
        (configure_services AppState.new
          { asr_url := "http://a", llm_url := "http://b", tts_url := "http://c" })
        (base64Encode (samples_to_wav [] 16000))
        { asrNet := stubNetJson 200 (.ok (Json.obj [(("text"), Json.str (""))]))
        , llmNet := stubNetFail ("unused")
        , ttsNet := stubNetTTSFail ("unused") }).state =
        configure_services AppState.new
          { asr_url := "http://a", llm_url := "http://b", tts_url := "http://c" }
    ∧ (process_audio
        (configure_services AppState.new
          { asr_url := "http://a", llm_url := "http://b", tts_url := "http://c" })
        (base64Encode (samples_to_wav [] 16000))
        { asrNet := stubNetJson 200 (.ok (Json.obj [(("text"), Json.str (""))]))
        , llmNet := stubNetFail ("unused")
        , ttsNet := stubNetTTSFail ("unused") }).trace.filter Ev.isCall = [Ev.asrCall] :=
  process_audio_empty_short_circuit
    (configure_services AppState.new
      { asr_url := "http://a", llm_url := "http://b", tts_url := "http://c" })
    (base64Encode (samples_to_wav [] 16000))
    { asrNet := stubNetJson 200 (.ok (Json.obj [(("text"), Json.str (""))]))
    , llmNet := stubNetFail ("unused")
    , ttsNet := stubNetTTSFail ("unused") }
    (samples_to_wav [] 16000) 200 (Json.obj [(("text"), Json.str (""))])
    rfl rfl (by decide) (by decide)

/-- A claim-C3 theorem: a failing stage aborts the rest of the turn — the
caller gets an error string and no partial result, later stages issue no
HTTP call — while the history mutation committed by a completed LLM stage
(the appended user and assistant messages) survives a TTS-stage failure.
The five conjuncts cover, in order: ASR failure, LLM failure and TTS
failure in process_audio, then LLM failure and TTS failure in
send_text_message. -/
theorem stage_failure_aborts_turn (st : AppState) (nets : NetOracles) :
    (∀ input audio e, base64Decode input = some audio →
      st.asr.transcribe_wav audio nets.asrNet = .error e →
      (process_audio st input nets).ret = .error e
      ∧ (process_audio st input nets).state = st
      ∧ (process_audio st input nets).trace.filter Ev.isCall = [Ev.asrCall])
    ∧ (∀ input audio tr llm1 e, base64Decode input = some audio →
        st.asr.transcribe_wav audio nets.asrNet = .ok tr →
        (rustTrim tr.text).isEmpty = false →
        st.llm.chat tr.text nets.llmNet = (llm1, .error e) →
        (process_audio st input nets).ret = .error e
        ∧ (process_audio st input nets).state = { st with llm := llm1 }
        ∧ (process_audio st input nets).trace.filter Ev.isCall = [Ev.asrCall, Ev.llmCall])
    ∧ (∀ input audio tr status2 j2 e, base64Decode input = some audio →
        st.asr.transcribe_wav audio nets.asrNet = .ok tr →
        (rustTrim tr.text).isEmpty = false →
        nets.llmNet (st.llm.chatPayload (st.llm.buildMessages tr.text) false)
          = .ok status2 (.ok j2) →
        statusIsSuccess status2 = true →
        st.tts.synthesize (extractAssistantContent j2) nets.ttsNet = .error e →
        (process_audio st input nets).ret = .error e
        ∧ (process_audio st input nets).state.llm.conversation_history =
            st.llm.conversation_history
              ++ [{ role := "user", content := tr.text },
                  { role := "assistant", content := extractAssistantContent j2 }]
        ∧ (process_audio st input nets).trace.filter Ev.isCall =
            [Ev.asrCall, Ev.llmCall, Ev.ttsCall])
    ∧ (∀ msg llm1 e, st.llm.chat msg nets.llmNet = (llm1, .error e) →
        (send_text_message st msg nets).ret = .error e
        ∧ (send_text_message st msg nets).state = { st with llm := llm1 }
        ∧ (send_text_message st msg nets).trace.filter Ev.isCall = [Ev.llmCall])
    ∧ (∀ msg status2 j2 e,
        nets.llmNet (st.llm.chatPayload (st.llm.buildMessages msg) false)
          = .ok status2 (.ok j2) →
        statusIsSuccess status2 = true →
        st.tts.synthesize (extractAssistantContent j2) nets.ttsNet = .error e →
        (send_text_message st msg nets).ret = .error e
        ∧ (send_text_message st msg nets).state.llm.conversation_history =
            st.llm.conversation_history
              ++ [{ role := "user", content := msg },
                  { role := "assistant", content := extractAssistantContent j2 }]
        ∧ (send_text_message st msg nets).trace.filter Ev.isCall =
            [Ev.llmCall, Ev.ttsCall]) := by
  refine ⟨?_, ?_, ?_, ?_, ?_⟩
  · intro input audio e hdec herr
    unfold process_audio
    rw [hdec]
    dsimp only
    rw [herr]
    exact ⟨rfl, rfl, by simp [Ev.isCall]⟩
  · intro input audio tr llm1 e hdec htr hne hchat
    unfold process_audio
    rw [hdec]
    dsimp only
    rw [htr]
    dsimp only
    rw [if_neg (by simp [hne]), hchat]
    exact ⟨rfl, rfl, by simp [Ev.isCall]⟩
  · intro input audio tr status2 j2 e hdec htr hne hnet hst2 htts
    unfold process_audio
    rw [hdec]
    dsimp only
    rw [htr]
    dsimp only
    rw [if_neg (by simp [hne]),
      QwenLLM.chat_success_eq st.llm tr.text nets.llmNet status2 j2 hnet hst2]
    dsimp only
    rw [htts]
    exact ⟨rfl, by simp [List.append_assoc], by simp [Ev.isCall]⟩
  · intro msg llm1 e hchat
    unfold send_text_message
    rw [hchat]
    exact ⟨rfl, rfl, by simp [Ev.isCall]⟩
  · intro msg status2 j2 e hnet hst2 htts
    unfold send_text_message
    rw [QwenLLM.chat_success_eq st.llm msg nets.llmNet status2 j2 hnet hst2]
    dsimp only
    rw [htts]
    exact ⟨rfl, by simp [List.append_assoc], by simp [Ev.isCall]⟩

/-- Witness for C3 at a concrete input: a completed LLM stage followed by
a TTS transport failure surfaces the TTS error while the user and
assistant messages stay in history, with exactly the three service calls
traced. -/
theorem stage_failure_aborts_turn_witness :
    (process_audio AppState.new (base64Encode (samples_to_wav [] 16000))
        { asrNet := stubNetJson 200 (.ok (Json.obj [(("text"), Json.str ("hello"))]))
        , llmNet := stubNetJson 200
            (.ok (Json.obj
              [(("choices"), Json.arr
                [Json.obj
                  [(("message"), Json.obj [(("content"), Json.str ("ok!"))]),
                   (("finish_reason"), Json.str ("stop"))]])]))
        , ttsNet := stubNetTTSFail ("boom") }).ret =
      .error ("Failed to send TTS request: boom")
    ∧ (process_audio AppState.new (base64Encode (samples_to_wav [] 16000))
        { asrNet := stubNetJson 200 (.ok (Json.obj [(("text"), Json.str ("hello"))]))
        , llmNet := stubNetJson 200
            (.ok (Json.obj
              [(("choices"), Json.arr
                [Json.obj
                  [(("message"), Json.obj [(("content"), Json.str ("ok!"))]),
                   (("finish_reason"), Json.str ("stop"))]])]))
        , ttsNet := stubNetTTSFail ("boom") }).state.llm.conversation_history =
        [{ role := "user", content := "hello" }, { role := "assistant", content := "ok!" }]
    ∧ (process_audio AppState.new (base64Encode (samples_to_wav [] 16000))
        { asrNet := stubNetJson 200 (.ok (Json.obj [(("text"), Json.str ("hello"))]))
        , llmNet := stubNetJson 200
            (.ok (Json.obj
              [(("choices"), Json.arr
                [Json.obj
                  [(("message"), Json.obj [(("content"), Json.str ("ok!"))]),
                   (("finish_reason"), Json.str ("stop"))]])]))
        , ttsNet := stubNetTTSFail ("boom") }).trace.filter Ev.isCall =
        [Ev.asrCall, Ev.llmCall, Ev.ttsCall] :=
  (stage_failure_aborts_turn AppState.new
      { asrNet := stubNetJson 200 (.ok (Json.obj [(("text"), Json.str ("hello"))]))
      , llmNet := stubNetJson 200
          (.ok (Json.obj
            [(("choices"), Json.arr
              [Json.obj
                [(("message"), Json.obj [(("content"), Json.str ("ok!"))]),
                 (("finish_reason"), Json.str ("stop"))]])]))
      , ttsNet := stubNetTTSFail ("boom") }).2.2.1
    (base64Encode (samples_to_wav [] 16000)) (samples_to_wav [] 16000)
    { text := "hello", language := none, duration := none, is_final := true }
    200
    (Json.obj
      [(("choices"), Json.arr
        [Json.obj
          [(("message"), Json.obj [(("content"), Json.str ("ok!"))]),
           (("finish_reason"), Json.str ("stop"))]])])
    ("Failed to send TTS request: boom")
    rfl rfl (by decide) rfl (by decide) rfl

/-- A `[DONE]` line ends the processing of the remaining lines of the
current chunk only: whatever follows it in the same line batch is ignored,
so the result is the same as if the batch had ended at the `[DONE]`. -/
theorem sseChunkLines_done_stops_batch (fromStr : String → Option Json)
    (ls rest : List String) (acc : String) (calls : List String) :
    sseChunkLines fromStr (ls ++ ("data: [DONE]") :: rest) acc calls
      = sseChunkLines fromStr ls acc calls := by
  induction ls generalizing acc calls with
  | nil => rfl
  | cons l t ih =>
    rw [List.cons_append]
    cases h1 : strStartsWith l ("data: ") with
    | false => simp only [sseChunkLines, h1, Bool.false_eq_true, if_false]; exact ih acc calls
    | true =>
      by_cases h2 : strDrop l 6 = "[DONE]"
      · simp only [sseChunkLines, h1, if_true, h2, if_pos]
      · cases h3 : fromStr (strDrop l 6) with
        | none => simp only [sseChunkLines, h1, if_true, h2, if_neg, h3]; exact ih acc calls
        | some j =>
          cases h4 : extractDeltaContent j with
          | none => simp only [sseChunkLines, h1, if_true, h2, if_neg, h3, h4]; exact ih acc calls
          | some c => simp only [sseChunkLines, h1, if_true, h2, if_neg, h3, h4]; exact ih _ _

/-- A claim-C4 theorem, in four conjuncts following the claim: (1) a
`[DONE]` payload stops consumption of the remaining lines of its own
chunk only; (2) the outer loop over chunks continues after any chunk,
feeding the next chunk the accumulator and callback record so far; (3) any
other `data: `-prefixed payload is parsed and, when
`choices[0].delta.content` is present, the content is appended to the
accumulator and recorded as an `on_chunk` invocation; (4) when the stream
ends the accumulator becomes the assistant history entry and the response
carries `finish_reason = some "stop"`. -/
theorem chat_stream_sse_semantics (fromStr : String → Option Json) :
    (∀ ls rest acc calls,
      sseChunkLines fromStr (ls ++ ("data: [DONE]") :: rest) acc calls
        = sseChunkLines fromStr ls acc calls)
    ∧ (∀ c chunks acc calls,
        sseFold fromStr (Except.ok c :: chunks) acc calls
          = sseFold fromStr chunks
              (sseChunkLines fromStr (rustLines c) acc calls).1
              (sseChunkLines fromStr (rustLines c) acc calls).2)
    ∧ (∀ line rest acc calls j c,
        strStartsWith line ("data: ") = true → strDrop line 6 ≠ "[DONE]" →
        fromStr (strDrop line 6) = some j → extractDeltaContent j = some c →
        sseChunkLines fromStr (line :: rest) acc calls
          = sseChunkLines fromStr rest (acc ++ c) (calls ++ [c]))
    ∧ (∀ (st : QwenLLM) (u : String) (net : Json → HttpResult (List (Except String String)))
        (status : Nat) (chunks : List (Except String String)) (acc : String)
        (calls : List String),
        net (st.chatPayload (st.buildMessages u) true) = .ok status chunks →
        statusIsSuccess status = true →
        sseFold fromStr chunks ("") [] = (acc, calls, none) →
        st.chat_stream u fromStr net =
          ({ st with conversation_history :=
              st.conversation_history
                ++ [{ role := "user", content := u },
                    { role := "assistant", content := acc }] },
           calls, .ok { text := acc, finish_reason := some ("stop") })) := by
  refine ⟨sseChunkLines_done_stops_batch fromStr, fun c chunks acc calls => rfl, ?_, ?_⟩
  · intro line rest acc calls j c h1 h2 h3 h4
    simp only [sseChunkLines, h1, if_true, h2, if_neg, h3, h4, if_false]
  · intro st u net status chunks acc calls hnet hst hsse
    unfold QwenLLM.chat_stream
    dsimp only
    rw [hnet]
    simp only [hst, if_true, hsse, List.append_assoc]
    rfl

/-- Witness for C4 at a concrete stream: the first chunk opens with
`[DONE]` followed by another data line, which is therefore skipped, while
the second chunk is still consumed — its delta content becomes the
accumulator, the single `on_chunk` call, the assistant history entry, and
the response text, with `finish_reason = some "stop"`. -/
theorem chat_stream_sse_semantics_witness :
    (QwenLLM.new QwenConfig.default).chat_stream ("hi")
        (fun s =>
          if s = "A" then
            some (Json.obj [(("choices"), Json.arr
              [Json.obj [(("delta"), Json.obj [(("content"), Json.str ("SKIPPED"))])]])])
          else if s = "B" then
            some (Json.obj [(("choices"), Json.arr
              [Json.obj [(("delta"), Json.obj [(("content"), Json.str ("hi!"))])]])])
          else none)
        (fun _ => .ok 200 [Except.ok "data: [DONE]\ndata: A", Except.ok "data: B"]) =
      ({ config := QwenConfig.default
       , conversation_history :=
          [{ role := "user", content := "hi" }, { role := "assistant", content := "hi!" }] },
       ["hi!"], .ok { text := "hi!", finish_reason := some ("stop") }) :=
  (chat_stream_sse_semantics
      (fun s =>
        if s = "A" then
          some (Json.obj [(("choices"), Json.arr
            [Json.obj [(("delta"), Json.obj [(("content"), Json.str ("SKIPPED"))])]])])
        else if s = "B" then
          some (Json.obj [(("choices"), Json.arr
            [Json.obj [(("delta"), Json.obj [(("content"), Json.str ("hi!"))])]])])
        else none)).2.2.2
    (QwenLLM.new QwenConfig.default) ("hi")
    (fun _ => .ok 200 [Except.ok "data: [DONE]\ndata: A", Except.ok "data: B"])
    200 [Except.ok "data: [DONE]\ndata: A", Except.ok "data: B"]
    ("hi!") ["hi!"] rfl (by decide) (by decide)

end Assidenter
